import Mathlib

set_option maxRecDepth 8000

/-!
Verification development for the FileOrganizer repository.

The Python modules file_handler/file_utils.py, file_handler/file_operations.py
and file_handler/metadata_handlers.py are embedded shallowly:

* paths are lists of path components (os.path.join folder name = folder ++ [name]);
* the filesystem is an explicit state: an association list from file paths to
  file data (content plus access and modification times) together with a list
  of existing directories;
* OS-level failures that depend on conditions outside the modelled state
  (permissions, unwritable files, the interactive input() prompt, the PIL,
  TinyTag and ffprobe probes, a raising progress callback) are supplied by an
  explicit environment of oracles, one per effectful call site;
* sha256 is modelled as the identity on file contents (an injective digest);
* exceptions are modelled with Except / Option results, and the one Python
  loop without a structural bound (the _copyN rename loop) and the recursion
  over subdirectories take explicit fuel.
-/

/-- Python str.lower, as used on extensions and on the duplicate answer. -/
def strToLower (s : String) : String := ⟨s.toList.map Char.toLower⟩

/-- Splitting a subfolder string such as "Documents/Text" at the path
separator, the effect os.path.join has on a second argument containing
slashes. -/
def splitSlashAux : List Char → List Char → List String
  | [], cur => [⟨cur.reverse⟩]
  | c :: cs, cur =>
    if c = '/' then (⟨cur.reverse⟩ : String) :: splitSlashAux cs []
    else splitSlashAux cs (c :: cur)

def splitSlash (s : String) : List String := splitSlashAux s.toList []

/-- os.path.splitext on a file name: split at the last dot, except that a
name whose characters before the last dot are all dots (such as ".bashrc"
or "..") has no extension. -/
def splitext (s : String) : String × String :=
  let cs := s.toList
  let dotIdxs := (List.range cs.length).filter (fun i => cs.getD i ' ' = '.')
  match dotIdxs.getLast? with
  | none => (s, "")
  | some i =>
    if (cs.take i).any (fun c => c != '.') then (⟨cs.take i⟩, ⟨cs.drop i⟩)
    else (s, "")

/-- Content and stat data of one regular file (os.stat is modelled by the
access and modification times, the two fields preserve_timestamps reads). -/
structure FileData where
  data : String
  atime : Nat
  mtime : Nat
deriving DecidableEq

instance : Inhabited FileData := ⟨⟨"", 0, 0⟩⟩

/-- The filesystem state: regular files with their data, and directories. -/
structure FS where
  files : List (List String × FileData)
  dirs : List (List String)
deriving DecidableEq

/-- Look up a regular file. -/
def FS.lookupFile (fs : FS) (p : List String) : Option FileData :=
  (fs.files.find? (fun e => decide (e.1 = p))).map (fun e => e.2)

/-- os.path.isfile. -/
def FS.isfile (fs : FS) (p : List String) : Bool :=
  (FS.lookupFile fs p).isSome

/-- os.path.isdir. -/
def FS.isdir (fs : FS) (p : List String) : Bool :=
  fs.dirs.any (fun q => decide (q = p))

/-- os.path.exists. -/
def path_exists (fs : FS) (p : List String) : Bool :=
  FS.isfile fs p || FS.isdir fs p

/-- os.listdir: the names of the immediate children of a directory, files
first, in the order of the state (the OS listing order is unspecified, so
the model fixes one). -/
def FS.children (fs : FS) (p : List String) : List String :=
  (fs.files.map (fun e => e.1) ++ fs.dirs).filterMap
    (fun q => if q.length = p.length + 1 ∧ q.take p.length = p then q.getLast? else none)

/-- os.makedirs with exist_ok=True: create the directory and every missing
ancestor. -/
def FS.mkdirp (fs : FS) (p : List String) : FS :=
  { files := fs.files,
    dirs := fs.dirs ++
      (((List.range p.length).map (fun i => p.take (i + 1))).filter
        (fun q => !(path_exists fs q))) }

/-- The two kinds of exception move_file can raise in the model: an OS error
from shutil.move itself (for example an unwritable file, supplied by the
environment oracle) and FileNotFoundError from os.stat. -/
inductive MoveError where
  | osError : MoveError
  | notFound : MoveError
deriving DecidableEq

/-- Errors os.listdir can raise at the top of organize_files. -/
inductive ListdirError where
  | permission : ListdirError
  | other : ListdirError
deriving DecidableEq

/-- The failures of get_video_duration. Every call raises NameError at the
os.path.splitext call, because metadata_handlers.py imports PIL, TinyTag,
textract and subprocess but never os. The explicit ValueError for an
unsupported container extension and any failure of the ffprobe subprocess
sit in dead code after that line; their constructors are kept to name them,
so that the absence of the distinct error can be stated. -/
inductive VideoError where
  | nameError : VideoError
  | unsupportedFormat : VideoError
  | probeError : VideoError
deriving DecidableEq

instance {ε α : Type} [DecidableEq ε] [DecidableEq α] : DecidableEq (Except ε α) := fun a b =>
  match a, b with
  | Except.ok x, Except.ok y =>
    if h : x = y then Decidable.isTrue (congrArg Except.ok h)
    else Decidable.isFalse (fun hh => h (Except.ok.inj hh))
  | Except.error x, Except.error y =>
    if h : x = y then Decidable.isTrue (congrArg Except.error h)
    else Decidable.isFalse (fun hh => h (Except.error.inj hh))
  | Except.ok _, Except.error _ => Decidable.isFalse (fun hh => Except.noConfusion hh)
  | Except.error _, Except.ok _ => Decidable.isFalse (fun hh => Except.noConfusion hh)

/-- The environment of effect oracles: every call the Python code makes whose
outcome is not determined by the modelled filesystem state is answered here.
A None / true answer at a call site means the corresponding Python call
raises there. -/
structure Env where
  listdirError : List String → Option ListdirError
  makedirsFails : List String → Bool
  hashRaises : List String → Bool
  moveRaises : List String → List String → Bool
  userInput : List String → List String → Option String
  callbackRaises : List String → Bool
  imageSize : List String → Option (Nat × Nat)
  audioDuration : List String → Option (Option Nat)
  videoProbe : List String → Option Nat

/-- An environment in which no external call fails and the duplicate prompt
always hits EOF (so the default action is used). -/
def benignEnv : Env :=
  { listdirError := fun _ => none,
    makedirsFails := fun _ => false,
    hashRaises := fun _ => false,
    moveRaises := fun _ _ => false,
    userInput := fun _ _ => none,
    callbackRaises := fun _ => false,
    imageSize := fun _ => none,
    audioDuration := fun _ => none,
    videoProbe := fun _ => none }

/-- shutil.move of a regular file: raises if the source is missing, otherwise
relocates the file data (silently replacing any file already at the
destination, as os.rename does on POSIX). -/
def shutil_move (fs : FS) (src dest : List String) : Except Unit FS :=
  match FS.lookupFile fs src with
  | none => Except.error ()
  | some fd =>
    Except.ok
      { files := (dest, fd) :: fs.files.filter (fun e => decide (e.1 ≠ src) && decide (e.1 ≠ dest)),
        dirs := fs.dirs }

/-- os.stat on a regular file: FileNotFoundError when the path is missing. -/
def os_stat (fs : FS) (p : List String) : Except Unit FileData :=
  match FS.lookupFile fs p with
  | none => Except.error ()
  | some fd => Except.ok fd

/-- os.utime: set the access and modification times of an existing file. -/
def os_utime (fs : FS) (p : List String) (at_ mt : Nat) : FS :=
  { files := fs.files.map (fun e => if e.1 = p then (e.1, ⟨e.2.data, at_, mt⟩) else e),
    dirs := fs.dirs }

/-- file_operations.preserve_timestamps: stat src, then copy its access and
modification times onto dest. -/
def preserve_timestamps (fs : FS) (src dest : List String) : Except Unit FS :=
  match os_stat fs src with
  | Except.error _ => Except.error ()
  | Except.ok st => Except.ok (os_utime fs dest st.atime st.mtime)

/-- file_operations.move_file: shutil.move(src, dest) followed by
preserve_timestamps(src, dest). An exception raised after the relocation
leaves the relocation in place, so the function returns the state reached
together with the exception, if any. -/
def move_file (env : Env) (fs : FS) (src dest : List String) : FS × Option MoveError :=
  if env.moveRaises src dest then (fs, some MoveError.osError)
  else
    match shutil_move fs src dest with
    | Except.error _ => (fs, some MoveError.notFound)
    | Except.ok fs1 =>
      match preserve_timestamps fs1 src dest with
      | Except.error _ => (fs1, some MoveError.notFound)
      | Except.ok fs2 => (fs2, none)

/-- file_operations.calculate_file_hash: open the file and digest its
content; sha256 is modelled as an injective digest, so the digest is the
content itself. Raises when the open or read fails (oracle) or when the path
is not a regular file. -/
def calculate_file_hash (env : Env) (fs : FS) (p : List String) : Except Unit String :=
  if env.hashRaises p then Except.error ()
  else
    match FS.lookupFile fs p with
    | none => Except.error ()
    | some fd => Except.ok fd.data

/-- The configuration dictionary, with the three keys organize_files and its
helpers read. Dictionary iteration order is the list order. A key missing
from the JSON is modelled by an empty list (the code reads file_categories
and subfolders with .get(key, default {})) respectively by the default
string "k" baked into the caller for default_duplicate_action. -/
structure AppConfig where
  file_categories : List (String × List String)
  subfolders : List (String × String)
  default_duplicate_action : String
deriving DecidableEq

/-- The whitelist assigned on the first line of get_video_duration; the
assignment runs, but the list is never consulted because the next line
raises. -/
def supported_formats : List String := [".mp4", ".avi", ".mov", ".mkv", ".wmv"]

/-- metadata_handlers.get_video_duration: the module never imports os, so
the call os.path.splitext(file_path) on the line after the whitelist
assignment raises NameError on every invocation, before the extension
whitelist check. The whitelist check with its distinct ValueError and the
ffprobe call are unreachable dead code, so neither the extension of the path
nor the probe oracle is ever consulted: the function is constantly the
NameError, whatever the environment and the path. -/
def get_video_duration (_env : Env) (_p : List String) : Except VideoError Nat :=
  Except.error VideoError.nameError

/-- file_utils.handle_duplicate: ask the user; EOFError or KeyboardInterrupt
(None from the oracle) and an empty answer both fall back to the default
action, any other answer is lowercased and returned. -/
def handle_duplicate (env : Env) (src dest : List String) (default_action : String) : String :=
  match env.userInput src dest with
  | none => default_action
  | some a => if a = "" then default_action else strToLower a

/-- file_utils.handle_category: the per-category subfolder. Probe failures
are caught inside each branch and mapped to the Unknown subfolders; a
category outside the four known ones falls through to the category name.
Durations are modelled as naturals (int() truncation of the probe result is
absorbed into the oracle). -/
def handle_category (env : Env) (file_path : List String) (category ext : String)
    (document_subfolders : List (String × String)) : String :=
  if category = "Images" then
    match env.imageSize file_path with
    | some wh => "Images/" ++ toString wh.1 ++ "x" ++ toString wh.2
    | none => "Images/Unknown_Size"
  else if category = "Audio" then
    match env.audioDuration file_path with
    | none => "Audio/Unknown_Duration"
    | some d => "Audio/" ++ toString (d.getD 0) ++ "s"
  else if category = "Documents" then
    match document_subfolders.find? (fun kv => decide (kv.1 = strToLower ext)) with
    | some kv => "Documents/" ++ kv.2
    | none => "Documents/Other_Documents"
  else if category = "Video" then
    match get_video_duration env file_path with
    | Except.ok d => "Video/" ++ toString d ++ "s"
    | Except.error _ => "Video/Unknown_Duration"
  else category

/-- file_utils.organize_by_metadata: the first category whose extension list
contains the extension wins; no category matching gives "Others". -/
def organize_by_metadata (env : Env) (file_path : List String) (ext : String)
    (cfg : AppConfig) : String :=
  match cfg.file_categories.find? (fun ce => ce.2.any (fun e => decide (e = ext))) with
  | none => "Others"
  | some ce => handle_category env file_path ce.1 ext cfg.subfolders

/-- The candidate path the rename branch tries at counter value n:
target_folder joined with base_name ++ "_copy" ++ n ++ ext. -/
def cand (target_folder : List String) (base ext : String) (n : Nat) : List String :=
  target_folder ++ [base ++ "_copy" ++ toString n ++ ext]

/-- The while loop of the rename branch in organize_files: while the current
dest exists, replace it by the next _copyN candidate. The Python loop is
bounded only by the finiteness of the filesystem, so the model takes fuel;
rename_fuel below always suffices on the states the engine reaches. -/
def rename_dest (fs : FS) (target_folder : List String) (base ext : String) :
    List String → Nat → Nat → List String
  | dest, _, 0 => dest
  | dest, counter, fuel + 1 =>
    if path_exists fs dest then
      rename_dest fs target_folder base ext (cand target_folder base ext counter) (counter + 1) fuel
    else dest

/-- Fuel for the rename loop: one more than the number of existing paths. -/
def rename_fuel (fs : FS) : Nat := fs.files.length + fs.dirs.length + 1

/-- The summary dictionary: one field per counter key organize_files uses.
The returned dict materialises only nonzero keys; the model keeps every
field, absent keys being the zero fields. -/
structure Summary where
  error : Nat
  permission_denied : Nat
  no_extension : Nat
  mkdir_failed : Nat
  duplicate_kept : Nat
  duplicate_check_failed : Nat
  moved : Nat
  move_failed : Nat
  preview : Nat
  processing_error : Nat
deriving DecidableEq

def Summary.zero : Summary := ⟨0, 0, 0, 0, 0, 0, 0, 0, 0, 0⟩

/-- Merging a subdirectory summary into the parent summary: pointwise sum,
exactly the per-key addition loop in organize_files. -/
def Summary.add (a b : Summary) : Summary :=
  ⟨a.error + b.error, a.permission_denied + b.permission_denied,
   a.no_extension + b.no_extension, a.mkdir_failed + b.mkdir_failed,
   a.duplicate_kept + b.duplicate_kept,
   a.duplicate_check_failed + b.duplicate_check_failed,
   a.moved + b.moved, a.move_failed + b.move_failed,
   a.preview + b.preview, a.processing_error + b.processing_error⟩

/-- The observable result of a traversal: the filesystem state, the summary
the call returns, and the number of times the progress callback was invoked
(a world effect of the call, counted for the progress-reporting claims). -/
structure RunResult where
  fs : FS
  summary : Summary
  cbCalls : Nat
deriving DecidableEq

/-- The tail of the per-file body shared by every path that reaches the move
step: move the file (counting moved or move_failed) or count a preview, then
invoke the callback if one was supplied. A raising callback is caught and
only logged, so the invocation is counted and nothing else happens. -/
def move_or_preview (env : Env) (preview_mode has_callback : Bool)
    (src dest : List String) (fs : FS) (s : Summary) (cb : Nat) : FS × Summary × Nat :=
  let st :=
    if preview_mode then (fs, { s with preview := s.preview + 1 })
    else
      match move_file env fs src dest with
      | (fs2, none) => (fs2, { s with moved := s.moved + 1 })
      | (fs2, some _) => (fs2, { s with move_failed := s.move_failed + 1 })
  (st.1, st.2, if has_callback then cb + 1 else cb)

/-- The body of one iteration of the for loop of organize_files, for the
entry named file of folder; next is the processing of the remaining entries,
applied to the updated filesystem, summary and callback count. Every
continue path jumps past the callback invocation, as in the source. -/
def org_step (env : Env) (cfg : AppConfig) (recursive preview_mode has_callback : Bool)
    (recurse : FS → List String → RunResult) (folder : List String) (file : String)
    (next : FS → Summary → Nat → RunResult) (fs : FS) (s : Summary) (cb : Nat) : RunResult :=
  let src := folder ++ [file]
  if FS.isdir fs src && recursive then
    let sub := recurse fs src
    next sub.fs (Summary.add s sub.summary) (cb + sub.cbCalls)
  else if !(FS.isfile fs src) then
    next fs s cb
  else
    let ext := strToLower (splitext file).2
    if ext = "" then
      next fs { s with no_extension := s.no_extension + 1 } cb
    else
      let subfolder := organize_by_metadata env src ext cfg
      let target_folder := folder ++ splitSlash subfolder
      if env.makedirsFails target_folder then
        next fs { s with mkdir_failed := s.mkdir_failed + 1 } cb
      else
        let fs1 := FS.mkdirp fs target_folder
        let dest := target_folder ++ [file]
        if path_exists fs1 dest then
          match calculate_file_hash env fs1 src, calculate_file_hash env fs1 dest with
          | Except.ok h1, Except.ok h2 =>
            if h1 = h2 then
              let action := handle_duplicate env src dest cfg.default_duplicate_action
              if action = "r" then
                let dest2 := rename_dest fs1 target_folder (splitext file).1 (splitext file).2
                  dest 1 (rename_fuel fs1)
                let t := move_or_preview env preview_mode has_callback src dest2 fs1 s cb
                next t.1 t.2.1 t.2.2
              else if action = "k" then
                next fs1 { s with duplicate_kept := s.duplicate_kept + 1 } cb
              else
                let t := move_or_preview env preview_mode has_callback src dest fs1 s cb
                next t.1 t.2.1 t.2.2
            else
              let t := move_or_preview env preview_mode has_callback src dest fs1 s cb
              next t.1 t.2.1 t.2.2
          | Except.error _, _ =>
            next fs1 { s with duplicate_check_failed := s.duplicate_check_failed + 1 } cb
          | _, Except.error _ =>
            next fs1 { s with duplicate_check_failed := s.duplicate_check_failed + 1 } cb
        else
          let t := move_or_preview env preview_mode has_callback src dest fs1 s cb
          next t.1 t.2.1 t.2.2

/-- The for loop of organize_files over the os.listdir snapshot, threading
the filesystem, the summary and the callback count; recurse is the recursive
organize_files call used for subdirectories. Written with List.rec so that
it reduces by iota in the kernel. -/
def org_loop (env : Env) (cfg : AppConfig) (recursive preview_mode has_callback : Bool)
    (recurse : FS → List String → RunResult) (folder : List String) (l : List String) :
    FS → Summary → Nat → RunResult :=
  List.rec (motive := fun _ => FS → Summary → Nat → RunResult)
    (fun fs s cb => ⟨fs, s, cb⟩)
    (fun file _rest ih => org_step env cfg recursive preview_mode has_callback recurse folder file ih)
    l

/-- The unfolding equation of org_loop on the empty listing. -/
theorem org_loop_nil (env : Env) (cfg : AppConfig) (r p hc : Bool)
    (recurse : FS → List String → RunResult) (folder : List String) (fs : FS) (s : Summary)
    (cb : Nat) : org_loop env cfg r p hc recurse folder [] fs s cb = ⟨fs, s, cb⟩ := rfl

/-- The unfolding equation of org_loop on a non-empty listing. -/
theorem org_loop_cons (env : Env) (cfg : AppConfig) (r p hc : Bool)
    (recurse : FS → List String → RunResult) (folder : List String) (file : String)
    (rest : List String) (fs : FS) (s : Summary) (cb : Nat) :
    org_loop env cfg r p hc recurse folder (file :: rest) fs s cb =
      org_step env cfg r p hc recurse folder file
        (org_loop env cfg r p hc recurse folder rest) fs s cb := rfl

/-- file_utils.organize_files. The fatal checks come first: a missing folder
or a non-directory return the error summary, a listing failure returns the
permission_denied or error summary, all without touching file-level
counters. Then the listdir snapshot is processed by the loop. Recursion into
subdirectories takes fuel (the Python recursion is bounded by the directory
tree depth); fuel 0 is an artifact never reached with the fuel the theorems
supply. The per-file catch-all that feeds processing_error is unreachable in
the model because every modelled operation returns totally; the field is
kept so the summary has every key the source can produce. The body is split
from the fuel recursion (organize_files below) so that the definition
reduces by iota in the kernel. -/
def organize_body (env : Env) (cfg : AppConfig) (recursive preview_mode has_callback : Bool)
    (recurse : FS → List String → RunResult) (fs : FS) (folder : List String) : RunResult :=
  if !(path_exists fs folder) then ⟨fs, { Summary.zero with error := 1 }, 0⟩
  else if !(FS.isdir fs folder) then ⟨fs, { Summary.zero with error := 1 }, 0⟩
  else
    match env.listdirError folder with
    | some ListdirError.permission => ⟨fs, { Summary.zero with permission_denied := 1 }, 0⟩
    | some ListdirError.other => ⟨fs, { Summary.zero with error := 1 }, 0⟩
    | none =>
      org_loop env cfg recursive preview_mode has_callback recurse folder
        (FS.children fs folder) fs Summary.zero 0

def organize_files (env : Env) (cfg : AppConfig) (recursive preview_mode has_callback : Bool)
    (fuel : Nat) : FS → List String → RunResult :=
  Nat.rec (motive := fun _ => FS → List String → RunResult)
    (fun fs _ => ⟨fs, Summary.zero, 0⟩)
    (fun _ ih => organize_body env cfg recursive preview_mode has_callback ih)
    fuel

/-- The unfolding equation of organize_files at fuel zero. -/
theorem organize_files_zero (env : Env) (cfg : AppConfig) (r p h : Bool) (fs : FS)
    (folder : List String) : organize_files env cfg r p h 0 fs folder = ⟨fs, Summary.zero, 0⟩ := rfl

/-- The unfolding equation of organize_files at a successor fuel value: the
fatal checks, then the loop over the listing, recursing with one less unit
of fuel. -/
theorem organize_files_succ (env : Env) (cfg : AppConfig) (r p h : Bool) (fuel : Nat) (fs : FS)
    (folder : List String) :
    organize_files env cfg r p h (fuel + 1) fs folder =
      organize_body env cfg r p h (organize_files env cfg r p h fuel) fs folder := rfl

/-- A configuration with one Documents category for .txt files, parameterized
by the default duplicate action. -/
def docCfgA (act : String) : AppConfig :=
  ⟨[("Documents", [".txt"])], [(".txt", "Text")], act⟩

/-- The same configuration with the usual default action "k". -/
def docCfg : AppConfig := docCfgA "k"

/-- A configuration that routes .webm files to the Video category. -/
def webmCfg : AppConfig := ⟨[("Video", [".webm"])], [], "k"⟩

/-- A root directory holding the single file a.txt. -/
def fsOne (c1 : String) : FS :=
  ⟨[(["root", "a.txt"], ⟨c1, 1, 2⟩)], [["root"]]⟩

/-- A root directory holding a.txt and a colliding file already at the
destination Documents/Text/a.txt. -/
def fsDup (c1 c2 : String) : FS :=
  ⟨[(["root", "a.txt"], ⟨c1, 1, 2⟩), (["root", "Documents", "Text", "a.txt"], ⟨c2, 3, 4⟩)],
   [["root"], ["root", "Documents"], ["root", "Documents", "Text"]]⟩

/-- The rename scenario of the spec: the destination folder already holds
a.txt, a_copy1.txt and a_copy2.txt, all with the content of the source. -/
def fsCopies (c1 : String) : FS :=
  ⟨[(["root", "a.txt"], ⟨c1, 1, 2⟩),
    (["root", "Documents", "Text", "a.txt"], ⟨c1, 3, 4⟩),
    (["root", "Documents", "Text", "a_copy1.txt"], ⟨c1, 5, 6⟩),
    (["root", "Documents", "Text", "a_copy2.txt"], ⟨c1, 7, 8⟩)],
   [["root"], ["root", "Documents"], ["root", "Documents", "Text"]]⟩

/-- A root directory holding the two files f1.txt and f2.txt. -/
def fsTwo : FS :=
  ⟨[(["root", "f1.txt"], ⟨"x", 1, 2⟩), (["root", "f2.txt"], ⟨"y", 3, 4⟩)], [["root"]]⟩

/-- A root directory holding the single video file x.webm. -/
def fsWebm : FS :=
  ⟨[(["root", "x.webm"], ⟨"v", 1, 2⟩)], [["root"]]⟩

/-- The benign environment with a fixed answer at the duplicate prompt. -/
def inputEnv (inp : Option String) : Env :=
  { benignEnv with userInput := fun _ _ => inp }

/-- The benign environment with a progress callback that raises on every
invocation (the stop-requested behaviour of the processing thread, whose
folder_callback raises InterruptedError once the stop flag is set). -/
def raiseCbEnv : Env :=
  { benignEnv with callbackRaises := fun _ => true }

/-- The benign environment in which shutil.move raises on the source
root/f1.txt (the deliberately unwritable file of the partial-failure test). -/
def unwritableEnv : Env :=
  { benignEnv with moveRaises := fun s _ => decide (s = ["root", "f1.txt"]) }

/-- The benign environment in which os.listdir raises PermissionError. -/
def permEnv : Env :=
  { benignEnv with listdirError := fun _ => some ListdirError.permission }

/-- A directory path makes os.path.exists true. -/
theorem path_exists_of_isdir (fs : FS) (p : List String) (h : FS.isdir fs p = true) :
    path_exists fs p = true := by
  unfold path_exists
  rw [h, Bool.or_true]

/-- The rename while loop leaves a non-existing destination unchanged. -/
theorem rename_dest_fresh (fs : FS) (tf : List String) (base ext : String) (dest : List String)
    (counter fuel : Nat) (h : path_exists fs dest = false) :
    rename_dest fs tf base ext dest counter fuel = dest := by
  cases fuel with
  | zero => rfl
  | succ n =>
    unfold rename_dest
    rw [h]
    rfl

/-- The rename while loop of organize_files lands exactly on the first
_copyN candidate that does not exist: starting from an existing dest at
counter value counter, if every candidate before N exists and the candidate
at N does not, the loop returns the candidate at N (given enough fuel). -/
theorem rename_dest_eq_cand (fs : FS) (tf : List String) (base ext : String) :
    ∀ (fuel counter : Nat) (dest : List String) (N : Nat),
      path_exists fs dest = true →
      (∀ m, m < N → counter ≤ m → path_exists fs (cand tf base ext m) = true) →
      path_exists fs (cand tf base ext N) = false →
      counter ≤ N → N < counter + fuel →
      rename_dest fs tf base ext dest counter fuel = cand tf base ext N := by
  intro fuel
  induction fuel with
  | zero =>
    intro counter dest N h1 h2 h3 h4 h5
    omega
  | succ n ih =>
    intro counter dest N h1 h2 h3 h4 h5
    unfold rename_dest
    rw [h1, if_pos rfl]
    by_cases hc : counter = N
    · subst hc
      exact rename_dest_fresh fs tf base ext _ _ n h3
    · exact ih (counter + 1) (cand tf base ext counter) N
        (h2 counter (lt_of_le_of_ne h4 hc) le_rfl)
        (fun m hm1 hm2 => h2 m hm1 (Nat.le_of_succ_le hm2))
        h3 (by omega) (by omega)

/-- In the list shutil.move produces, every entry of the filtered tail has a
key different from the moved source. -/
theorem find_src_filter_none (l : List (List String × FileData)) (src dest : List String) :
    (l.filter (fun e => decide (e.1 ≠ src) && decide (e.1 ≠ dest))).find?
      (fun e => decide (e.1 = src)) = none := by
  rw [List.find?_eq_none]
  intro x hx
  have hm := (List.mem_filter.mp hx).2
  simp only [Bool.and_eq_true, decide_eq_true_eq] at hm
  simp only [Bool.not_eq_true, decide_eq_false_iff_not]
  exact hm.1

/-- One loop iteration in preview mode does not change the set of files:
only FS.mkdirp touches the state, and it only adds directories. -/
theorem org_step_preview_files (env : Env) (cfg : AppConfig) (r hc : Bool)
    (recurse : FS → List String → RunResult) (folder : List String) (file : String)
    (next : FS → Summary → Nat → RunResult)
    (hrec : ∀ fs p, (recurse fs p).fs.files = fs.files)
    (hnext : ∀ fs s cb, (next fs s cb).fs.files = fs.files) :
    ∀ (fs : FS) (s : Summary) (cb : Nat),
      (org_step env cfg r true hc recurse folder file next fs s cb).fs.files = fs.files := by
  intro fs s cb
  simp only [org_step]
  repeat' split
  all_goals rw [hnext]
  all_goals first
    | rfl
    | exact hrec fs _

/-- The whole loop in preview mode does not change the set of files. -/
theorem org_loop_preview_files (env : Env) (cfg : AppConfig) (r hc : Bool)
    (recurse : FS → List String → RunResult) (folder : List String)
    (hrec : ∀ fs p, (recurse fs p).fs.files = fs.files) :
    ∀ (l : List String) (fs : FS) (s : Summary) (cb : Nat),
      (org_loop env cfg r true hc recurse folder l fs s cb).fs.files = fs.files := by
  intro l
  induction l with
  | nil =>
    intro fs s cb
    rfl
  | cons file rest ih =>
    intro fs s cb
    rw [org_loop_cons]
    exact org_step_preview_files env cfg r hc recurse folder file
      (org_loop env cfg r true hc recurse folder rest) hrec
      (fun a b c => ih a b c) fs s cb

/-- A preview run of organize_files, at any recursion depth, does not change
the set of files of the filesystem: no file is created, removed, relocated
or rewritten. -/
theorem organize_files_preview_files (env : Env) (cfg : AppConfig) (r hc : Bool) :
    ∀ (fuel : Nat) (fs : FS) (folder : List String),
      (organize_files env cfg r true hc fuel fs folder).fs.files = fs.files := by
  intro fuel
  induction fuel with
  | zero =>
    intro fs folder
    rfl
  | succ n ih =>
    intro fs folder
    rw [organize_files_succ]
    unfold organize_body
    repeat' split
    all_goals first
      | rfl
      | exact org_loop_preview_files env cfg r hc (organize_files env cfg r true hc n) folder
          (fun fs2 p => ih fs2 p) (FS.children fs folder) fs Summary.zero 0

/-- C1 counterexample: with source root/a.txt containing "x" and destination
Documents/Text/a.txt containing "y" (digests differ), the run replaces the
destination file content "y" by "x" and creates no _copy1 name: the existing
destination file is overwritten and the rename branch is never taken,
contradicting the claim at this explicit input. -/
theorem C1_counterexample :
    FS.lookupFile (fsDup "x" "y") ["root", "Documents", "Text", "a.txt"] = some ⟨"y", 3, 4⟩
    ∧ FS.lookupFile (organize_files benignEnv docCfg false false false 1 (fsDup "x" "y") ["root"]).fs
        ["root", "Documents", "Text", "a.txt"] = some ⟨"x", 1, 2⟩
    ∧ path_exists (organize_files benignEnv docCfg false false false 1 (fsDup "x" "y") ["root"]).fs
        ["root", "Documents", "Text", "a_copy1.txt"] = false
    ∧ FS.lookupFile (organize_files benignEnv docCfg false false false 1 (fsDup "x" "y") ["root"]).fs
        ["root", "a.txt"] = none := by decide

/-- C1 amended: when the digests differ, the duplicate machinery is skipped
entirely: the run is the same for every prompt answer and every default
duplicate action, the source is moved onto the existing destination path,
overwriting it, and no _copyN name is created. -/
theorem C1_digest_mismatch_overwrites :
    ∀ (c1 c2 : String) (inp : Option String) (act : String), c1 ≠ c2 →
      organize_files (inputEnv inp) (docCfgA act) false false false 1 (fsDup c1 c2) ["root"] =
        ⟨⟨[(["root", "Documents", "Text", "a.txt"], ⟨c1, 1, 2⟩)],
          [["root"], ["root", "Documents"], ["root", "Documents", "Text"]]⟩,
         ⟨0, 0, 0, 0, 0, 0, 0, 1, 0, 0⟩, 0⟩ := by
  intro c1 c2 inp act hne
  exact if_neg hne

/-- C1 witness: the amended theorem applied at contents "x" and "y". -/
theorem C1_witness :
    ("x" : String) ≠ "y"
    ∧ organize_files (inputEnv none) (docCfgA "k") false false false 1 (fsDup "x" "y") ["root"] =
        ⟨⟨[(["root", "Documents", "Text", "a.txt"], ⟨"x", 1, 2⟩)],
          [["root"], ["root", "Documents"], ["root", "Documents", "Text"]]⟩,
         ⟨0, 0, 0, 0, 0, 0, 0, 1, 0, 0⟩, 0⟩ :=
  ⟨by decide, C1_digest_mismatch_overwrites "x" "y" none "k" (by decide)⟩

/-- C2: move_file relocates first and only then calls preserve_timestamps,
which runs os.stat on the already-moved source path; for every filesystem in
which the source is a regular file distinct from the destination (and
shutil.move itself does not fail), the relocation happens but the call
raises FileNotFoundError and os.utime never runs, so the claimed copying of
the timestamps onto the destination never takes place. -/
theorem C2_timestamps_never_applied :
    ∀ (env : Env) (fs : FS) (src dest : List String) (fd : FileData),
      FS.lookupFile fs src = some fd → src ≠ dest → env.moveRaises src dest = false →
      move_file env fs src dest =
        (⟨(dest, fd) :: fs.files.filter (fun e => decide (e.1 ≠ src) && decide (e.1 ≠ dest)),
          fs.dirs⟩, some MoveError.notFound) := by
  intro env fs src dest fd hlk hne hmv
  have hfs1 : FS.lookupFile
      ⟨(dest, fd) :: fs.files.filter (fun e => decide (e.1 ≠ src) && decide (e.1 ≠ dest)), fs.dirs⟩
      src = none := by
    unfold FS.lookupFile
    rw [List.find?_cons_of_neg, find_src_filter_none]
    · rfl
    · simp only [Bool.not_eq_true, decide_eq_false_iff_not]
      exact fun h => hne h.symm
  unfold move_file shutil_move preserve_timestamps os_stat
  rw [hmv]
  simp only [Bool.false_eq_true, if_false, hlk, hfs1]

/-- C2 witness: the theorem applied to a one-file directory. -/
theorem C2_witness :
    FS.lookupFile (fsOne "x") ["root", "a.txt"] = some ⟨"x", 1, 2⟩
    ∧ (["root", "a.txt"] : List String) ≠ ["root", "b.txt"]
    ∧ benignEnv.moveRaises ["root", "a.txt"] ["root", "b.txt"] = false
    ∧ move_file benignEnv (fsOne "x") ["root", "a.txt"] ["root", "b.txt"] =
        (⟨[(["root", "b.txt"], ⟨"x", 1, 2⟩)], [["root"]]⟩, some MoveError.notFound) :=
  ⟨by decide, by decide, by decide,
    (C2_timestamps_never_applied benignEnv (fsOne "x") ["root", "a.txt"] ["root", "b.txt"]
      ⟨"x", 1, 2⟩ (by decide) (by decide) (by decide)).trans (by decide)⟩

/-- C3: with two files in the folder, f1.txt deliberately unwritable
(shutil.move raises on it) and f2.txt writable, both files are processed and
nothing escapes the call, but the returned summary is moved = 0 and
move_failed = 2 instead of the claimed moved = 1 and move_failed = 1: the
writable file is relocated, yet its move is also counted as failed because
preserve_timestamps stats the already-moved source and raises. -/
theorem C3_unwritable_sibling_run :
    (organize_files unwritableEnv docCfg false false false 1 fsTwo ["root"]).summary =
      ⟨0, 0, 0, 0, 0, 0, 0, 2, 0, 0⟩
    ∧ (organize_files unwritableEnv docCfg false false false 1 fsTwo ["root"]).fs =
      ⟨[(["root", "Documents", "Text", "f2.txt"], ⟨"y", 3, 4⟩), (["root", "f1.txt"], ⟨"x", 1, 2⟩)],
       [["root"], ["root", "Documents"], ["root", "Documents", "Text"]]⟩ := by decide

/-- C4: with the stop flag set from the start (the processing-thread callback
raises InterruptedError on every invocation), a preview run over a two-file
folder still processes both entries and counts two callback invocations: the
exception the callback raises is caught by the callback handler inside the
loop, so the run never stops early and the full, not partial, summary is
returned. -/
theorem C4_stop_request_ignored :
    (organize_files raiseCbEnv docCfg false true true 1 fsTwo ["root"]).summary =
      ⟨0, 0, 0, 0, 0, 0, 0, 0, 2, 0⟩
    ∧ (organize_files raiseCbEnv docCfg false true true 1 fsTwo ["root"]).cbCalls = 2
    ∧ (organize_files raiseCbEnv docCfg false true true 1 fsTwo ["root"]).fs.files = fsTwo.files := by
  decide

/-- C5 counterexample: a preview run over a one-file folder changes the
filesystem (the target directories Documents and Documents/Text are
created), and its preview count is 1 while the non-preview run on the same
input produces moved = 0 (every move raises in preserve_timestamps), so
neither the no-mutation half nor the preview-equals-moved half of the claim
holds at this input. -/
theorem C5_counterexample :
    ((organize_files benignEnv docCfg false true false 1 (fsOne "x") ["root"]).fs = fsOne "x" → False)
    ∧ (organize_files benignEnv docCfg false true false 1 (fsOne "x") ["root"]).summary.preview = 1
    ∧ (organize_files benignEnv docCfg false false false 1 (fsOne "x") ["root"]).summary.moved = 0 := by
  decide

/-- C5 amended: a preview run never changes the set of files (no file is
created, removed, relocated or rewritten), but it does create target
directories; the preview count equals the number of files reaching the move
step, which the non-preview run on identical inputs counts as moved plus
move_failed. -/
theorem C5_preview_behaviour :
    (∀ (env : Env) (cfg : AppConfig) (r hc : Bool) (fuel : Nat) (fs : FS) (folder : List String),
      (organize_files env cfg r true hc fuel fs folder).fs.files = fs.files)
    ∧ (organize_files benignEnv docCfg false true false 1 (fsOne "x") ["root"]).summary.preview = 1
    ∧ (organize_files benignEnv docCfg false true false 1 (fsOne "x") ["root"]).fs.dirs =
        [["root"], ["root", "Documents"], ["root", "Documents", "Text"]]
    ∧ (organize_files benignEnv docCfg false false false 1 (fsOne "x") ["root"]).summary.moved +
        (organize_files benignEnv docCfg false false false 1 (fsOne "x") ["root"]).summary.move_failed
        = 1 :=
  ⟨fun env cfg r hc fuel fs folder => organize_files_preview_files env cfg r hc fuel fs folder,
   by decide, by decide, by decide⟩

/-- C6: the four fatal conditions return immediately with a distinguished
single-key summary and an untouched filesystem: a missing folder and a
non-directory path return the error summary, a PermissionError from
os.listdir returns the permission_denied summary, and any other listing
failure returns the error summary; no file-level counter is set and nothing
is raised (the embedding is total). -/
theorem C6_fatal_conditions_return :
    ∀ (env : Env) (cfg : AppConfig) (r p hc : Bool) (fuel : Nat) (fs : FS) (folder : List String),
      (path_exists fs folder = false →
        organize_files env cfg r p hc (fuel + 1) fs folder =
          ⟨fs, ⟨1, 0, 0, 0, 0, 0, 0, 0, 0, 0⟩, 0⟩)
      ∧ (FS.isdir fs folder = false →
        organize_files env cfg r p hc (fuel + 1) fs folder =
          ⟨fs, ⟨1, 0, 0, 0, 0, 0, 0, 0, 0, 0⟩, 0⟩)
      ∧ (FS.isdir fs folder = true →
        env.listdirError folder = some ListdirError.permission →
        organize_files env cfg r p hc (fuel + 1) fs folder =
          ⟨fs, ⟨0, 1, 0, 0, 0, 0, 0, 0, 0, 0⟩, 0⟩)
      ∧ (FS.isdir fs folder = true →
        env.listdirError folder = some ListdirError.other →
        organize_files env cfg r p hc (fuel + 1) fs folder =
          ⟨fs, ⟨1, 0, 0, 0, 0, 0, 0, 0, 0, 0⟩, 0⟩) := by
  intro env cfg r p hc fuel fs folder
  refine ⟨fun h1 => ?_, fun h2 => ?_, fun hd hp => ?_, fun hd hp => ?_⟩
  · rw [organize_files_succ]
    unfold organize_body
    rw [h1]
    rfl
  · rw [organize_files_succ]
    unfold organize_body
    cases hpe : path_exists fs folder with
    | false => rfl
    | true =>
      rw [h2]
      rfl
  · rw [organize_files_succ]
    unfold organize_body
    rw [path_exists_of_isdir fs folder hd, hd, hp]
    rfl
  · rw [organize_files_succ]
    unfold organize_body
    rw [path_exists_of_isdir fs folder hd, hd, hp]
    rfl

/-- C6 witness: the theorem applied to a permission failure on an existing
directory and to a missing folder. -/
theorem C6_witness :
    (FS.isdir (fsOne "x") ["root"] = true
      ∧ permEnv.listdirError ["root"] = some ListdirError.permission
      ∧ organize_files permEnv docCfg false false false 1 (fsOne "x") ["root"] =
          ⟨fsOne "x", ⟨0, 1, 0, 0, 0, 0, 0, 0, 0, 0⟩, 0⟩)
    ∧ (path_exists ⟨[], []⟩ ["root"] = false
      ∧ organize_files benignEnv docCfg false false false 1 ⟨[], []⟩ ["root"] =
          ⟨⟨[], []⟩, ⟨1, 0, 0, 0, 0, 0, 0, 0, 0, 0⟩, 0⟩) :=
  ⟨⟨by decide, by decide,
    (C6_fatal_conditions_return permEnv docCfg false false false 0 (fsOne "x") ["root"]).2.2.1
      (by decide) (by decide)⟩,
   ⟨by decide,
    (C6_fatal_conditions_return benignEnv docCfg false false false 0 ⟨[], []⟩ ["root"]).1
      (by decide)⟩⟩

/-- C7: the rename decision lands on the base name with _copy followed by
the first counter value N, starting at 1, whose candidate path does not
exist in the destination folder (general statement on the loop extracted
from organize_files); and in the scenario of the spec, with a.txt,
a_copy1.txt and a_copy2.txt already in the destination folder, the whole
traversal moves the new duplicate of a.txt to a_copy3.txt, leaving the three
existing files untouched. -/
theorem C7_rename_copyN :
    (∀ (fs : FS) (tf : List String) (base ext : String) (fuel counter : Nat)
        (dest : List String) (N : Nat),
      path_exists fs dest = true →
      (∀ m, m < N → counter ≤ m → path_exists fs (cand tf base ext m) = true) →
      path_exists fs (cand tf base ext N) = false →
      counter ≤ N → N < counter + fuel →
      rename_dest fs tf base ext dest counter fuel = cand tf base ext N)
    ∧ (organize_files (inputEnv (some "r")) docCfg false false false 1 (fsCopies "c") ["root"]).fs =
        ⟨[(["root", "Documents", "Text", "a_copy3.txt"], ⟨"c", 1, 2⟩),
          (["root", "Documents", "Text", "a.txt"], ⟨"c", 3, 4⟩),
          (["root", "Documents", "Text", "a_copy1.txt"], ⟨"c", 5, 6⟩),
          (["root", "Documents", "Text", "a_copy2.txt"], ⟨"c", 7, 8⟩)],
         [["root"], ["root", "Documents"], ["root", "Documents", "Text"]]⟩ :=
  ⟨fun fs tf base ext => rename_dest_eq_cand fs tf base ext, by decide⟩

/-- C7 witness: the general part applied to the concrete rename scenario,
with the same fuel value organize_files supplies. -/
theorem C7_witness :
    path_exists (fsCopies "c") ["root", "Documents", "Text", "a.txt"] = true
    ∧ rename_dest (fsCopies "c") ["root", "Documents", "Text"] "a" ".txt"
        ["root", "Documents", "Text", "a.txt"] 1 8 =
      cand ["root", "Documents", "Text"] "a" ".txt" 3 :=
  ⟨by decide,
   C7_rename_copyN.1 (fsCopies "c") ["root", "Documents", "Text"] "a" ".txt" 8 1
     ["root", "Documents", "Text", "a.txt"] 3 (by decide) (by decide) (by decide)
     (by decide) (by decide)⟩

/-- C8 counterexample: for the video file x.webm (extension outside the
supported container list), get_video_duration raises NameError, not the
distinct UnsupportedFormat the claim describes, and a file with the
supported extension .mp4 fails identically, so no distinction is made; the
failure is then absorbed: the file is classified into Video/Unknown_Duration
and a preview run records it as a normal preview outcome with no file-level
failure counter, contradicting the claim at these explicit inputs. -/
theorem C8_counterexample :
    get_video_duration benignEnv ["root", "x.webm"] = Except.error VideoError.nameError
    ∧ get_video_duration benignEnv ["root", "x.webm"] ≠ Except.error VideoError.unsupportedFormat
    ∧ get_video_duration benignEnv ["root", "x.mp4"] = get_video_duration benignEnv ["root", "x.webm"]
    ∧ organize_by_metadata benignEnv ["root", "x.webm"] ".webm" webmCfg = "Video/Unknown_Duration"
    ∧ (organize_files benignEnv webmCfg false true false 1 fsWebm ["root"]).summary =
        ⟨0, 0, 0, 0, 0, 0, 0, 0, 1, 0⟩ := by decide

/-- C8 amended: for every environment and every path, supported and
unsupported container extensions alike, get_video_duration raises NameError
at its os.path.splitext call (metadata_handlers.py never imports os), before
the whitelist check and before any probe: the result does not depend on the
probe oracle or on the extension, and the distinct UnsupportedFormat error
is unreachable; handle_category catches the exception and classifies the
file as Video/Unknown_Duration, a normal classification outcome rather than
a recorded failure. -/
theorem C8_video_nameerror_classified :
    ∀ (env : Env) (p : List String) (subs : List (String × String)) (ext : String),
      get_video_duration env p = Except.error VideoError.nameError
      ∧ handle_category env p "Video" ext subs = "Video/Unknown_Duration" := by
  intro env p subs ext
  exact ⟨rfl, rfl⟩

/-- C9 counterexample: a run over one file that is a kept duplicate (the
prompt hits EOF and the default action "k" applies) ends with
duplicate_kept = 1 and zero callback invocations, although a callback was
supplied: the kept outcome continues the loop before the callback call, so
the progress collaborator is not notified after every per-file outcome. -/
theorem C9_counterexample :
    (organize_files benignEnv docCfg false false true 1 (fsDup "x" "x") ["root"]).summary.duplicate_kept
      = 1
    ∧ (organize_files benignEnv docCfg false false true 1 (fsDup "x" "x") ["root"]).cbCalls = 0 := by
  decide

/-- C9 amended: the collaborator is notified exactly once after a moved,
previewed or move-failed outcome (the shared tail of the loop body adds one
invocation whenever a callback is supplied, for each of its three outcomes),
a raising collaborator is caught and the remaining files are still processed
(two raising invocations, both files counted), while kept outcomes skip the
notification. -/
theorem C9_callback_per_outcome :
    (∀ (env : Env) (pv hc : Bool) (src dest : List String) (fs : FS) (s : Summary) (cb : Nat),
      (move_or_preview env pv hc src dest fs s cb).2.2 = if hc then cb + 1 else cb)
    ∧ (organize_files raiseCbEnv docCfg false false true 1 fsTwo ["root"]).cbCalls = 2
    ∧ (organize_files raiseCbEnv docCfg false false true 1 fsTwo ["root"]).summary.move_failed = 2
    ∧ (organize_files benignEnv docCfg false false true 1 (fsDup "x" "x") ["root"]).summary.duplicate_kept
        = 1 :=
  ⟨fun env pv hc src dest fs s cb => rfl, by decide, by decide, by decide⟩

/-- C10: for every true duplicate (equal digests) and every prompt answer
whose processed token is neither "k" nor "r" (for example "o", or any other
string), the engine falls through the duplicate branch and moves the source
onto the original, still-existing destination path, replacing the
destination file with the source file data; no _copyN name is created and
the result holds for every default action. -/
theorem C10_unrecognized_token_overwrites :
    ∀ (c : String) (inp : Option String) (act : String),
      handle_duplicate (inputEnv inp) ["root", "a.txt"] ["root", "Documents", "Text", "a.txt"] act
        ≠ "r" →
      handle_duplicate (inputEnv inp) ["root", "a.txt"] ["root", "Documents", "Text", "a.txt"] act
        ≠ "k" →
      organize_files (inputEnv inp) (docCfgA act) false false false 1 (fsDup c c) ["root"] =
        ⟨⟨[(["root", "Documents", "Text", "a.txt"], ⟨c, 1, 2⟩)],
          [["root"], ["root", "Documents"], ["root", "Documents", "Text"]]⟩,
         ⟨0, 0, 0, 0, 0, 0, 0, 1, 0, 0⟩, 0⟩ := by
  intro c inp act h1 h2
  exact (if_pos rfl).trans ((if_neg h1).trans (if_neg h2))

/-- C10 witness: the theorem applied to the prompt answer "o": the
destination file data (content "x", times 3 and 4) is replaced by the source
file data (content "x", times 1 and 2) at the original destination path. -/
theorem C10_witness :
    handle_duplicate (inputEnv (some "o")) ["root", "a.txt"] ["root", "Documents", "Text", "a.txt"]
      "k" ≠ "r"
    ∧ handle_duplicate (inputEnv (some "o")) ["root", "a.txt"] ["root", "Documents", "Text", "a.txt"]
      "k" ≠ "k"
    ∧ organize_files (inputEnv (some "o")) (docCfgA "k") false false false 1 (fsDup "x" "x") ["root"]
        = ⟨⟨[(["root", "Documents", "Text", "a.txt"], ⟨"x", 1, 2⟩)],
            [["root"], ["root", "Documents"], ["root", "Documents", "Text"]]⟩,
           ⟨0, 0, 0, 0, 0, 0, 0, 1, 0, 0⟩, 0⟩ :=
  ⟨by decide, by decide,
   C10_unrecognized_token_overwrites "x" (some "o") "k" (by decide) (by decide)⟩
